import Mathlib

/-!
Shallow embedding of the porkbun DNS client library (src/lib.rs) and of its
dynamic-DNS driver (ddns/src/main.rs).  The HTTP transport and the
filesystem are abstracted away: every operation is modelled as a pure
function from its inputs (credentials, URL parameters, and the provider's
response body) to the request it would send and the decoded result.
-/

namespace Porkbun

/-- JSON values, as produced by a serde_json parse of a response body.
Numbers keep their source lexeme; no claim depends on a numeric value. -/
inductive Json where
  | null : Json
  | bool (b : Bool) : Json
  | num (lexeme : String) : Json
  | str (s : String) : Json
  | arr (elems : List Json) : Json
  | obj (fields : List (String × Json)) : Json

/-- JSON insignificant whitespace characters. -/
def isWsChar (c : Char) : Bool :=
  c = ' ' || c = '\t' || c = '\n' || c = '\r'

/-- Skip insignificant whitespace. -/
def skipWs : List Char → List Char
  | [] => []
  | c :: cs => if isWsChar c then skipWs cs else c :: cs

/-- Hexadecimal digit test, for string escapes. -/
def isHexChar (c : Char) : Bool :=
  c.isDigit || ('a' ≤ c && c ≤ 'f') || ('A' ≤ c && c ≤ 'F')

/-- Value of a hexadecimal digit. -/
def hexVal (c : Char) : Nat :=
  if c.isDigit then c.toNat - 48
  else if 'a' ≤ c && c ≤ 'f' then c.toNat - 87
  else c.toNat - 55

/-- Parse the body of a JSON string after the opening quote, unescaping
escape sequences; returns the decoded string and the remaining input. -/
def parseStrBody : Nat → List Char → List Char → Option (String × List Char)
  | 0, _, _ => none
  | _ + 1, _, [] => none
  | fuel + 1, acc, c :: cs =>
    if c = '"' then some (String.mk acc.reverse, cs)
    else if c = '\\' then
      match cs with
      | [] => none
      | e :: cs2 =>
        if e = '"' then parseStrBody fuel ('"' :: acc) cs2
        else if e = '\\' then parseStrBody fuel ('\\' :: acc) cs2
        else if e = '/' then parseStrBody fuel ('/' :: acc) cs2
        else if e = 'b' then parseStrBody fuel ('\x08' :: acc) cs2
        else if e = 'f' then parseStrBody fuel ('\x0c' :: acc) cs2
        else if e = 'n' then parseStrBody fuel ('\n' :: acc) cs2
        else if e = 'r' then parseStrBody fuel ('\x0d' :: acc) cs2
        else if e = 't' then parseStrBody fuel ('\t' :: acc) cs2
        else if e = 'u' then
          match cs2 with
          | h1 :: h2 :: h3 :: h4 :: cs3 =>
            if isHexChar h1 && isHexChar h2 && isHexChar h3 && isHexChar h4 then
              let n := ((hexVal h1 * 16 + hexVal h2) * 16 + hexVal h3) * 16 + hexVal h4
              parseStrBody fuel (Char.ofNat n :: acc) cs3
            else none
          | _ => none
        else none
    else if c.toNat < 32 then none
    else parseStrBody fuel (c :: acc) cs

/-- Take a maximal run of decimal digits. -/
def takeDigits : List Char → List Char × List Char
  | [] => ([], [])
  | c :: cs =>
    if c.isDigit then
      let (d, r) := takeDigits cs
      (c :: d, r)
    else ([], c :: cs)

/-- Parse the integer part of a JSON number (leading zero rules included). -/
def parseIntPart : List Char → Option (List Char × List Char)
  | [] => none
  | c :: cs =>
    if c = '0' then some ([c], cs)
    else if c.isDigit then
      let (d, r) := takeDigits cs
      some (c :: d, r)
    else none

/-- Parse the optional fraction part of a JSON number. -/
def parseFracPart : List Char → Option (List Char × List Char)
  | '.' :: cs =>
    match takeDigits cs with
    | ([], _) => none
    | (d, r) => some ('.' :: d, r)
  | cs => some ([], cs)

/-- Parse the optional exponent part of a JSON number. -/
def parseExpPart : List Char → Option (List Char × List Char)
  | e :: cs =>
    if e = 'e' || e = 'E' then
      let (sgn, cs2) :=
        match cs with
        | s :: r => if s = '+' || s = '-' then ([s], r) else (([] : List Char), s :: r)
        | [] => (([] : List Char), ([] : List Char))
      match takeDigits cs2 with
      | ([], _) => none
      | (d, r) => some (e :: (sgn ++ d), r)
    else some ([], e :: cs)
  | [] => some ([], [])

/-- Parse a JSON number, returning its lexeme and the remaining input. -/
def parseNum (cs : List Char) : Option (String × List Char) :=
  let (neg, cs1) :=
    match cs with
    | '-' :: r => (['-'], r)
    | _ => (([] : List Char), cs)
  match parseIntPart cs1 with
  | none => none
  | some (ip, cs2) =>
    match parseFracPart cs2 with
    | none => none
    | some (fp, cs3) =>
      match parseExpPart cs3 with
      | none => none
      | some (ep, cs4) => some (String.mk (neg ++ ip ++ fp ++ ep), cs4)

/-- Match an expected literal suffix (for true / false / null). -/
def stripLit : List Char → List Char → Option (List Char)
  | [], cs => some cs
  | _ :: _, [] => none
  | e :: es, c :: cs => if c = e then stripLit es cs else none

/-- Insert a field into an object, keeping the last occurrence of a
duplicate key, as serde_json's map construction does. -/
def insertFld (fields : List (String × Json)) (k : String) (v : Json) :
    List (String × Json) :=
  if fields.any (fun p => p.1 == k) then
    fields.map (fun p => if p.1 == k then (k, v) else p)
  else fields ++ [(k, v)]

/-- Collapse duplicate keys of a parsed object, last occurrence winning. -/
def dedupeFields (raw : List (String × Json)) : List (String × Json) :=
  raw.foldl (fun acc p => insertFld acc p.1 p.2) []

mutual

/-- Parse one JSON value; fuel bounds the recursion depth. -/
def parseVal : Nat → List Char → Option (Json × List Char)
  | 0, _ => none
  | fuel + 1, cs =>
    match skipWs cs with
    | [] => none
    | c :: rest =>
      if c = '"' then
        (parseStrBody (rest.length + 1) [] rest).map (fun p => (Json.str p.1, p.2))
      else if c = '\x7b' then
        match skipWs rest with
        | '\x7d' :: r2 => some (Json.obj [], r2)
        | _ => (parseObjItems fuel rest).map
            (fun p => (Json.obj (dedupeFields p.1), p.2))
      else if c = '[' then
        match skipWs rest with
        | ']' :: r2 => some (Json.arr [], r2)
        | _ => (parseArrItems fuel rest).map (fun p => (Json.arr p.1, p.2))
      else if c = 't' then
        (stripLit ['r', 'u', 'e'] rest).map (fun r => (Json.bool true, r))
      else if c = 'f' then
        (stripLit ['a', 'l', 's', 'e'] rest).map (fun r => (Json.bool false, r))
      else if c = 'n' then
        (stripLit ['u', 'l', 'l'] rest).map (fun r => (Json.null, r))
      else
        (parseNum (c :: rest)).map (fun p => (Json.num p.1, p.2))

/-- Parse the comma-separated members of a non-empty JSON object,
up to and including the closing brace. -/
def parseObjItems : Nat → List Char → Option (List (String × Json) × List Char)
  | 0, _ => none
  | fuel + 1, cs =>
    match skipWs cs with
    | '"' :: r1 =>
      match parseStrBody (r1.length + 1) [] r1 with
      | none => none
      | some (k, r2) =>
        match skipWs r2 with
        | ':' :: r3 =>
          match parseVal fuel r3 with
          | none => none
          | some (v, r4) =>
            match skipWs r4 with
            | ',' :: r5 =>
              (parseObjItems fuel r5).map (fun p => ((k, v) :: p.1, p.2))
            | '\x7d' :: r5 => some ([(k, v)], r5)
            | _ => none
        | _ => none
    | _ => none

/-- Parse the comma-separated elements of a non-empty JSON array,
up to and including the closing bracket. -/
def parseArrItems : Nat → List Char → Option (List Json × List Char)
  | 0, _ => none
  | fuel + 1, cs =>
    match parseVal fuel cs with
    | none => none
    | some (v, r1) =>
      match skipWs r1 with
      | ',' :: r2 => (parseArrItems fuel r2).map (fun p => (v :: p.1, p.2))
      | ']' :: r2 => some ([v], r2)
      | _ => none

end

/-- Parse a whole string as one JSON document, requiring that nothing but
whitespace follows, as serde_json's from_str does. -/
def jsonParse (s : String) : Option Json :=
  match parseVal (s.length + 1) s.data with
  | none => none
  | some (v, rest) => if (skipWs rest).isEmpty then some v else none

/-- A string is syntactically valid JSON when it parses completely. -/
def isValidJson (s : String) : Bool :=
  (jsonParse s).isSome

/-- Response status, serialized as the literals SUCCESS / ERROR. -/
inductive Status where
  | Success : Status
  | Error : Status
deriving DecidableEq

/-- DNS record types, with their serde rename strings given by
recordTypeName below. -/
inductive RecordType where
  | A : RecordType
  | Mx : RecordType
  | Cname : RecordType
  | Alias : RecordType
  | Txt : RecordType
  | Ns : RecordType
  | Aaaa : RecordType
  | Srv : RecordType
  | Tlsa : RecordType
  | Caa : RecordType
  | Https : RecordType
  | Svcb : RecordType
deriving DecidableEq

/-- Wire name of a record type (the serde rename attribute). -/
def recordTypeName : RecordType → String
  | RecordType.A => "A"
  | RecordType.Mx => "MX"
  | RecordType.Cname => "CNAME"
  | RecordType.Alias => "ALIAS"
  | RecordType.Txt => "TXT"
  | RecordType.Ns => "NS"
  | RecordType.Aaaa => "AAAA"
  | RecordType.Srv => "SRV"
  | RecordType.Tlsa => "TLSA"
  | RecordType.Caa => "CAA"
  | RecordType.Https => "HTTPS"
  | RecordType.Svcb => "SVCB"

/-- An IPv4 address as four octets. -/
structure Ipv4Addr where
  o1 : Nat
  o2 : Nat
  o3 : Nat
  o4 : Nat
deriving DecidableEq

/-- An IPv6 address as eight 16-bit groups. -/
structure Ipv6Addr where
  g1 : Nat
  g2 : Nat
  g3 : Nat
  g4 : Nat
  g5 : Nat
  g6 : Nat
  g7 : Nat
  g8 : Nat
deriving DecidableEq

/-- std::net::IpAddr. -/
inductive IpAddr where
  | V4 (a : Ipv4Addr) : IpAddr
  | V6 (a : Ipv6Addr) : IpAddr
deriving DecidableEq

/-- The library's error enum.  Io and Request stand for the filesystem and
transport failures, which the embedding never produces; Json is the
transparent serde_json error variant; the serde error payload of
MalformedApiSerde is dropped, the offending response body is kept. -/
inductive Error where
  | Io : Error
  | Request : Error
  | Json : Error
  | Api (message : String) : Error
  | MalformedApi (response : String) : Error
  | MalformedApiSerde (response : String) : Error
  | UnexpectedIpv4 (a : Ipv4Addr) : Error
  | UnexpectedIpv6 (a : Ipv6Addr) : Error
deriving DecidableEq

/-- The spec's MalformedResponse bucket: the provider's response did not
match the expected envelope or payload shape.  The code surfaces these as
MalformedApi, MalformedApiSerde, or the transparent serde_json error from
decoding the records payload. -/
def isMalformedResponse : Error → Bool
  | Error.MalformedApi _ => true
  | Error.MalformedApiSerde _ => true
  | Error.Json => true
  | _ => false

/-- Whether an operation's result is a MalformedResponse failure. -/
def resultMalformed : Except Error α → Bool
  | Except.error e => isMalformedResponse e
  | Except.ok _ => false

/-- The typed IPv4 record (typed_record macro instance): content is
deserialized as an Ipv4Addr and exposed as the address field. -/
structure Ipv4Record where
  id : String
  name : String
  address : Ipv4Addr
  ttl : String
  prio : String
  notes : Option String
deriving DecidableEq

/-- The typed IPv6 record (typed_record macro instance). -/
structure Ipv6Record where
  id : String
  name : String
  address : Ipv6Addr
  ttl : String
  prio : String
  notes : Option String
deriving DecidableEq

/-- The client's state: the raw key file text plus the two parsed keys.
The reqwest transport handle is not modelled. -/
structure Client where
  key_file : String
  secret_api_key : String
  api_key : String
deriving DecidableEq

/-- An HTTP POST request, reduced to its URL and body. -/
structure HttpReq where
  url : String
  body : String
deriving DecidableEq

/-- Look a field up in a parsed JSON object. -/
def lookupField (fields : List (String × Json)) (k : String) : Option Json :=
  (fields.find? (fun p => p.1 == k)).map (fun p => p.2)

/-- View a JSON value as a string (serde_json Value::as_str). -/
def asString : Json → Option String
  | Json.str s => some s
  | _ => none

/-- View a JSON value as an object (serde_json Value::as_object). -/
def asObj : Json → Option (List (String × Json))
  | Json.obj fields => some fields
  | _ => none

/-- Decode the Status enum from a JSON value: exactly the literal strings
SUCCESS and ERROR are accepted. -/
def decodeStatus (v : Json) : Option Status :=
  match asString v with
  | some s =>
    if s = "SUCCESS" then some Status.Success
    else if s = "ERROR" then some Status.Error
    else none
  | none => none

/-- Decode a String field carrying a serde default attribute: an absent
field becomes the empty string; a present field must be a string. -/
def decodeMessageDefault (fields : List (String × Json)) : Option String :=
  match lookupField fields ("message") with
  | none => some ("")
  | some (Json.str s) => some s
  | some _ => none

/-- Decode the optional yourIp field.  The textual address parse performed
by serde for std::net::IpAddr is external library code, abstracted as the
parseIp parameter. -/
def decodeOptIp (parseIp : String → Option IpAddr)
    (fields : List (String × Json)) : Option (Option IpAddr) :=
  match lookupField fields ("yourIp") with
  | none => some none
  | some Json.null => some none
  | some (Json.str s) => (parseIp s).map some
  | some _ => none

/-- The inline PingResponse shape of Client::ping_url. -/
structure PingResponse where
  status : Status
  message : String
  ip : Option IpAddr

/-- Serde-derived deserialization of PingResponse from a JSON value:
field order is irrelevant, unknown fields are ignored, status is
required, message defaults to the empty string. -/
def pingStructDecode (parseIp : String → Option IpAddr) (j : Json) :
    Option PingResponse :=
  match asObj j with
  | none => none
  | some fields => do
    let st ← lookupField fields ("status") >>= decodeStatus
    let msg ← decodeMessageDefault fields
    let ip ← decodeOptIp parseIp fields
    pure (PingResponse.mk st msg ip)

/-- Client::ping_url, from the response body onward: deserialize the body,
then dispatch on the envelope status.  A failed deserialization is
reported as MalformedApiSerde carrying the body. -/
def ping_url_decode (parseIp : String → Option IpAddr) (body : String) :
    Except Error (Option IpAddr) :=
  match jsonParse body >>= pingStructDecode parseIp with
  | none => Except.error (Error.MalformedApiSerde body)
  | some r =>
    match r.status with
    | Status.Success => Except.ok r.ip
    | Status.Error => Except.error (Error.Api r.message)

/-- The match in Client::ping_ipv4 on the result of ping_url. -/
def ping_ipv4_result (r : Except Error (Option IpAddr)) :
    Except Error (Option Ipv4Addr) :=
  match r with
  | Except.ok (some (IpAddr.V4 ip)) => Except.ok (some ip)
  | Except.ok (some (IpAddr.V6 ip)) => Except.error (Error.UnexpectedIpv6 ip)
  | Except.ok none => Except.ok none
  | Except.error msg => Except.error msg

/-- The match in Client::ping_ipv6 on the result of ping_url. -/
def ping_ipv6_result (r : Except Error (Option IpAddr)) :
    Except Error (Option Ipv6Addr) :=
  match r with
  | Except.ok (some (IpAddr.V4 ip)) => Except.error (Error.UnexpectedIpv4 ip)
  | Except.ok (some (IpAddr.V6 ip)) => Except.ok (some ip)
  | Except.ok none => Except.ok none
  | Except.error msg => Except.error msg

/-- Client::ping_ipv4 from the response body onward. -/
def ping_ipv4_decode (parseIp : String → Option IpAddr) (body : String) :
    Except Error (Option Ipv4Addr) :=
  ping_ipv4_result (ping_url_decode parseIp body)

/-- Client::ping_ipv6 from the response body onward. -/
def ping_ipv6_decode (parseIp : String → Option IpAddr) (body : String) :
    Except Error (Option Ipv6Addr) :=
  ping_ipv6_result (ping_url_decode parseIp body)

/-- Decode the optional numeric id field of the create response.  The
conversion of a JSON number lexeme to u32 is serde_json library code,
abstracted as the parseU32 parameter. -/
def decodeOptId (parseU32 : String → Option Nat)
    (fields : List (String × Json)) : Option (Option Nat) :=
  match lookupField fields ("id") with
  | none => some none
  | some Json.null => some none
  | some (Json.num s) => (parseU32 s).map some
  | some _ => none

/-- The inline Response shape of Client::create_record. -/
structure CreateResponse where
  status : Status
  message : String
  id : Option Nat

/-- Serde-derived deserialization of the create response. -/
def createStructDecode (parseU32 : String → Option Nat) (j : Json) :
    Option CreateResponse :=
  match asObj j with
  | none => none
  | some fields => do
    let st ← lookupField fields ("status") >>= decodeStatus
    let msg ← decodeMessageDefault fields
    let i ← decodeOptId parseU32 fields
    pure (CreateResponse.mk st msg i)

/-- Client::create_record, from the response body onward. -/
def create_record_decode (parseU32 : String → Option Nat) (body : String) :
    Except Error (Option Nat) :=
  match jsonParse body >>= createStructDecode parseU32 with
  | none => Except.error (Error.MalformedApiSerde body)
  | some r =>
    match r.status with
    | Status.Success => Except.ok r.id
    | Status.Error => Except.error (Error.Api r.message)

/-- The inline EditDnsRecordResponse shape of Client::edit_record_url. -/
structure EditResponse where
  status : Status
  message : String

/-- Serde-derived deserialization of the edit response. -/
def editStructDecode (j : Json) : Option EditResponse :=
  match asObj j with
  | none => none
  | some fields => do
    let st ← lookupField fields ("status") >>= decodeStatus
    let msg ← decodeMessageDefault fields
    pure (EditResponse.mk st msg)

/-- Client::edit_record_url, from the response body onward. -/
def edit_record_decode (body : String) : Except Error Unit :=
  match jsonParse body >>= editStructDecode with
  | none => Except.error (Error.MalformedApiSerde body)
  | some r =>
    match r.status with
    | Status.Success => Except.ok ()
    | Status.Error => Except.error (Error.Api r.message)

/-- Status extraction of Client::fetch_records_url: get the status field,
view it as a string, and recognize exactly the two literals. -/
def statusOf (fields : List (String × Json)) : Option Status :=
  lookupField fields ("status") >>= decodeStatus

/-- Message extraction of the fetch error path: the message field must be
present and a string. -/
def messageOf (fields : List (String × Json)) : Option String :=
  lookupField fields ("message") >>= asString

/-- serde_json::from_value for a Vec: the value must be an array and
every element must parse.  The element schema is a parameter, as the
source function is generic over the record type. -/
def vecParse (elemParse : Json → Option α) (v : Json) : Option (List α) :=
  match v with
  | Json.arr xs => xs.mapM elemParse
  | _ => none

/-- Client::fetch_records_url, from the response body onward: the lenient
decoder that first parses into an untyped value, validates the envelope
by field lookups, and only then specializes the records payload.  A
records payload that is present but fails the element schema propagates
the transparent serde_json error variant. -/
def fetch_records_decode (elemParse : Json → Option α) (body : String) :
    Except Error (List α) :=
  match jsonParse body with
  | none => Except.error (Error.MalformedApiSerde body)
  | some object =>
    match asObj object with
    | none => Except.error (Error.MalformedApi body)
    | some fields =>
      match statusOf fields with
      | none => Except.error (Error.MalformedApi body)
      | some Status.Success =>
        match lookupField fields ("records") with
        | none => Except.error (Error.MalformedApi body)
        | some v =>
          match vecParse elemParse v with
          | none => Except.error Error.Json
          | some records => Except.ok records
      | some Status.Error =>
        match messageOf fields with
        | none => Except.error (Error.MalformedApi body)
        | some m => Except.error (Error.Api m)

/-- Hexadecimal digit character, lowercase. -/
def hexDigitChar (n : Nat) : Char :=
  if n < 10 then Char.ofNat (48 + n) else Char.ofNat (87 + n)

/-- serde_json string escaping of one character. -/
def escapeJsonChar (c : Char) : String :=
  if c = '"' then "\\\""
  else if c = '\\' then "\\\\"
  else if c = '\x08' then "\\b"
  else if c = '\x0c' then "\\f"
  else if c = '\n' then "\\n"
  else if c = '\x0d' then "\\r"
  else if c = '\t' then "\\t"
  else if c.toNat < 32 then
    "\\u00" ++ String.mk [hexDigitChar (c.toNat / 16), hexDigitChar (c.toNat % 16)]
  else String.singleton c

/-- serde_json::to_string of a string value. -/
def jsonEncodeString (s : String) : String :=
  "\"" ++ String.join (s.data.map escapeJsonChar) ++ "\""

/-- serde_json::to_string of an Option of a string: None is null. -/
def jsonEncodeOptString : Option String → String
  | none => "null"
  | some s => jsonEncodeString s

/-- The body built by Client::edit_record_url's format! call: the secret
key, api key, and type values are interpolated by Display, without JSON
quoting; only the content value goes through serde_json::to_string. -/
def edit_record_body (secretApiKey apiKey ty contentJson : String) : String :=
  "\x7b\"secretapikey\":" ++ secretApiKey ++ ",\"apikey\":" ++ apiKey ++
    ",\"type\":" ++ ty ++ ",\"content\":" ++ contentJson ++ "\x7d"

/-- The body built by Client::create_record: serde_json::to_string of the
inline Body struct, in field order; absent options serialize as null. -/
def create_record_body (secretApiKey apiKey : String) (name : Option String)
    (ty : RecordType) (content : String) (ttl prio : Option String) : String :=
  "\x7b\"secretapikey\":" ++ jsonEncodeString secretApiKey ++
    ",\"apikey\":" ++ jsonEncodeString apiKey ++
    ",\"name\":" ++ jsonEncodeOptString name ++
    ",\"type\":" ++ jsonEncodeString (recordTypeName ty) ++
    ",\"content\":" ++ jsonEncodeString content ++
    ",\"ttl\":" ++ jsonEncodeOptString ttl ++
    ",\"prio\":" ++ jsonEncodeOptString prio ++ "\x7d"

/-- Display of an Ipv4Addr, dotted decimal. -/
def ipv4ToString (a : Ipv4Addr) : String :=
  Nat.repr a.o1 ++ "." ++ Nat.repr a.o2 ++ "." ++ Nat.repr a.o3 ++ "." ++
    Nat.repr a.o4

/-- An edit-record call: the URL it posts to, the type string passed to
edit_record_url, and the body the latter builds. -/
structure EditCall where
  url : String
  ty : String
  body : String
deriving DecidableEq

/-- Client::edit_ipv4_address: URL with the A path segment, type A, and
the address serialized through serde_json::to_string. -/
def edit_ipv4_address_req (c : Client) (domain : String)
    (subdomain : Option String) (address : Ipv4Addr) : EditCall :=
  EditCall.mk
    ("https://api.porkbun.com/api/json/v3/dns/editByNameType/" ++ domain ++
      "/A/" ++ subdomain.getD (""))
    ("A")
    (edit_record_body c.secret_api_key c.api_key ("A")
      (jsonEncodeString (ipv4ToString address)))

/-- Client::edit_ipv6_address as written in the source: it builds the
same A path segment as the IPv4 variant and passes the type string A.
The Display rendering of an Ipv6Addr is std library code, abstracted as
the v6Display parameter. -/
def edit_ipv6_address_req (v6Display : Ipv6Addr → String) (c : Client)
    (domain : String) (subdomain : Option String) (address : Ipv6Addr) :
    EditCall :=
  EditCall.mk
    ("https://api.porkbun.com/api/json/v3/dns/editByNameType/" ++ domain ++
      "/A/" ++ subdomain.getD (""))
    ("A")
    (edit_record_body c.secret_api_key c.api_key ("A")
      (jsonEncodeString (v6Display address)))

/-- Serde-derived deserialization of the key file's Keys struct: apikey
and secretapikey are required string fields, unknown fields are ignored. -/
def keysDecode (j : Json) : Option (String × String) :=
  match asObj j with
  | none => none
  | some fields => do
    let api ← lookupField fields ("apikey") >>= asString
    let secret ← lookupField fields ("secretapikey") >>= asString
    pure (api, secret)

/-- Client::open_keys, from the file text onward: parse the text as the
Keys struct and store the parsed keys together with the raw text. -/
def open_keys (raw : String) : Except Error Client :=
  match jsonParse raw with
  | none => Except.error Error.Json
  | some j =>
    match keysDecode j with
    | none => Except.error Error.Json
    | some p => Except.ok (Client.mk raw p.2 p.1)

/-- The ping request: the stored raw key file text is the body, verbatim. -/
def ping_request (c : Client) (url : String) : HttpReq :=
  HttpReq.mk url c.key_file

/-- The record name the driver reconciles against: the subdomain when one
was supplied, otherwise the domain. -/
def record_name (subdomain : Option String) (domain : String) : String :=
  subdomain.getD domain

/-- A write call the driver can issue. -/
inductive NetCall where
  | editV4 (domain : String) (subdomain : Option String)
      (address : Ipv4Addr) : NetCall
  | editV6 (domain : String) (subdomain : Option String)
      (address : Ipv6Addr) : NetCall
  | create (domain : String) (name : Option String) (ty : RecordType)
      (content : String) (ttl prio : Option String) : NetCall
deriving DecidableEq

/-- The driver's update_ipv4, with the network abstracted: the results the
provider would return for ping, fetch, edit, and create are parameters.
Returns whether the update succeeded and the write calls issued. -/
def update_ipv4 (domain : String) (subdomain : Option String)
    (recordName : String) (pingRes : Except Error (Option Ipv4Addr))
    (fetchRes : Except Error (List Ipv4Record)) (editRes : Except Error Unit)
    (createRes : Except Error (Option Nat)) : Bool × List NetCall :=
  match pingRes with
  | Except.error _ => (false, [])
  | Except.ok none => (false, [])
  | Except.ok (some ip) =>
    match fetchRes.map (fun records =>
        (records.find? (fun x => x.name == recordName)).map
          (fun x => x.address == ip)) with
    | Except.error _ => (false, [])
    | Except.ok (some true) => (true, [])
    | Except.ok (some false) =>
      match editRes with
      | Except.error _ => (false, [NetCall.editV4 domain subdomain ip])
      | Except.ok _ => (true, [NetCall.editV4 domain subdomain ip])
    | Except.ok none =>
      match createRes with
      | Except.error _ =>
        (false, [NetCall.create domain subdomain RecordType.Aaaa
          (ipv4ToString ip) none none])
      | Except.ok _ =>
        (true, [NetCall.create domain subdomain RecordType.Aaaa
          (ipv4ToString ip) none none])

/-- The driver's update_ipv6, same shape; the Display rendering of the
IPv6 address used as the create content is abstracted as v6Display. -/
def update_ipv6 (v6Display : Ipv6Addr → String) (domain : String)
    (subdomain : Option String) (recordName : String)
    (pingRes : Except Error (Option Ipv6Addr))
    (fetchRes : Except Error (List Ipv6Record)) (editRes : Except Error Unit)
    (createRes : Except Error (Option Nat)) : Bool × List NetCall :=
  match pingRes with
  | Except.error _ => (false, [])
  | Except.ok none => (false, [])
  | Except.ok (some ip) =>
    match fetchRes.map (fun records =>
        (records.find? (fun x => x.name == recordName)).map
          (fun x => x.address == ip)) with
    | Except.error _ => (false, [])
    | Except.ok (some true) => (true, [])
    | Except.ok (some false) =>
      match editRes with
      | Except.error _ => (false, [NetCall.editV6 domain subdomain ip])
      | Except.ok _ => (true, [NetCall.editV6 domain subdomain ip])
    | Except.ok none =>
      match createRes with
      | Except.error _ =>
        (false, [NetCall.create domain subdomain RecordType.Aaaa
          (v6Display ip) none none])
      | Except.ok _ =>
        (true, [NetCall.create domain subdomain RecordType.Aaaa
          (v6Display ip) none none])

/-- An address family, for the driver's attempt trace. -/
inductive Family where
  | v4 : Family
  | v6 : Family
deriving DecidableEq

/-- The driver's main, after the client opens: which families are
attempted, in order, and the process exit status.  The outcome of each
family's update sequence is a parameter; the ipv4 attempt runs first and
its outcome has no effect on whether the ipv6 attempt runs. -/
def main_run (ipv4Flag ipv6Flag v4ok v6ok : Bool) : List Family × Nat :=
  let s1 : List Family × Nat :=
    if ipv4Flag then ([Family.v4], if v4ok then 0 else 1) else ([], 0)
  let s2 : List Family × Nat :=
    if ipv6Flag then ([Family.v6], if v6ok then 0 else 1) else ([], 0)
  (s1.1 ++ s2.1, s1.2 + s2.2)

/-- An ERROR response envelope, with or without a message field, as the
spec describes it (payload fields absent on the error path). -/
def errEnvelope : Option String → Json
  | some m => Json.obj [(("status"), Json.str ("ERROR")), (("message"), Json.str m)]
  | none => Json.obj [(("status"), Json.str ("ERROR"))]

/-- Claim C1, counterexample: decoding the ERROR envelope without a
message field through the ping decoder yields ApiError carrying the
silently substituted empty string, not MalformedResponse — the serde
default attribute on the message field fills in the empty string. -/
theorem c1_empty_message_counterexample :
    ping_url_decode (fun _ => none) ("\x7b\"status\":\"ERROR\"\x7d")
      = Except.error (Error.Api (""))
    ∧ resultMalformed (ping_url_decode (fun _ => none)
        ("\x7b\"status\":\"ERROR\"\x7d")) = false :=
  ⟨rfl, rfl⟩

/-- Claim C1, amended: for every body that parses to an ERROR envelope
with a present message, all four decoders fail with ApiError carrying
that message verbatim; when the message is absent, only the lenient
record-fetch decoder fails with MalformedResponse — the ping, create,
and edit decoders default the message to the empty string and fail with
ApiError of the empty string. -/
theorem c1_error_envelope_decoding (body m : String)
    (parseIp : String → Option IpAddr) (parseU32 : String → Option Nat)
    (elemParse : Json → Option Ipv4Record) :
    (jsonParse body = some (errEnvelope (some m)) →
      ping_url_decode parseIp body = Except.error (Error.Api m)
      ∧ create_record_decode parseU32 body = Except.error (Error.Api m)
      ∧ edit_record_decode body = Except.error (Error.Api m)
      ∧ fetch_records_decode elemParse body = Except.error (Error.Api m))
    ∧ (jsonParse body = some (errEnvelope none) →
      ping_url_decode parseIp body = Except.error (Error.Api (""))
      ∧ create_record_decode parseU32 body = Except.error (Error.Api (""))
      ∧ edit_record_decode body = Except.error (Error.Api (""))
      ∧ fetch_records_decode elemParse body
          = Except.error (Error.MalformedApi body)) := by
  constructor <;> intro h <;>
    refine ⟨?_, ?_, ?_, ?_⟩ <;>
    first
    | (unfold ping_url_decode; rw [h]; rfl)
    | (unfold create_record_decode; rw [h]; rfl)
    | (unfold edit_record_decode; rw [h]; rfl)
    | (unfold fetch_records_decode; rw [h]; rfl)

/-- Claim C1, witness: the amended theorem applied to a concrete ERROR
envelope with a present message. -/
theorem c1_error_envelope_decoding_witness :
    ping_url_decode (fun _ => none)
      ("\x7b\"status\":\"ERROR\",\"message\":\"nope\"\x7d")
      = Except.error (Error.Api ("nope")) :=
  ((c1_error_envelope_decoding ("\x7b\"status\":\"ERROR\",\"message\":\"nope\"\x7d")
    ("nope") (fun _ => none) (fun _ => none) (fun _ => none)).1 rfl).1

/-- Claim C2: the body Client::edit_record_url builds is not a valid JSON
object — the secret key, api key, and type values are interpolated
without JSON quoting.  Evaluated at concrete credentials sk / ak, type A,
and address 1.2.3.4, the body is the shown string, which does not parse
as JSON; the third conjunct checks that edit_ipv4_address sends exactly
this body. -/
theorem c2_edit_body_invalid_json :
    isValidJson (edit_record_body ("sk") ("ak") ("A")
      (jsonEncodeString (ipv4ToString (Ipv4Addr.mk 1 2 3 4)))) = false
    ∧ edit_record_body ("sk") ("ak") ("A")
        (jsonEncodeString (ipv4ToString (Ipv4Addr.mk 1 2 3 4)))
      = "\x7b\"secretapikey\":sk,\"apikey\":ak,\"type\":A,\"content\":\"1.2.3.4\"\x7d"
    ∧ (edit_ipv4_address_req (Client.mk ("") ("sk") ("ak")) ("example.com")
        none (Ipv4Addr.mk 1 2 3 4)).body
      = edit_record_body ("sk") ("ak") ("A")
          (jsonEncodeString (ipv4ToString (Ipv4Addr.mk 1 2 3 4))) :=
  ⟨rfl, rfl, rfl⟩

/-- Claim C3: for every address serializer, client, and IPv6 address, the
IPv6 edit operation evaluated at domain example.com with no subdomain
posts to the URL whose type path segment is A (not AAAA), passes the type
string A, and targets exactly the same URL as the IPv4 edit — the code
reuses the A-record endpoint instead of deriving AAAA. -/
theorem c3_edit_ipv6_uses_type_a :
    ∀ (v6Display : Ipv6Addr → String) (c : Client) (address : Ipv6Addr),
    (edit_ipv6_address_req v6Display c ("example.com") none address).url
      = "https://api.porkbun.com/api/json/v3/dns/editByNameType/example.com/A/"
    ∧ (edit_ipv6_address_req v6Display c ("example.com") none address).ty = "A"
    ∧ (edit_ipv6_address_req v6Display c ("example.com") none address).url
      = (edit_ipv4_address_req c ("example.com") none (Ipv4Addr.mk 0 0 0 0)).url := by
  intro f c a
  exact ⟨rfl, rfl, rfl⟩

/-- Claim C4: with a successful ping and fetch, each driver's decision —
the IPv4 path and the separately coded IPv6 path alike — comes from the
first record whose name equals the target exactly: if its address equals
the observed address no write call is issued; if it differs, exactly the
edit call with the observed address is issued; if no record matches,
exactly the create call with the observed address and no explicit ttl or
prio is issued.  The last conjunct of each half states that records
after a first match never change the outcome. -/
theorem c4_reconciliation_writes (v6Display : Ipv6Addr → String)
    (domain : String) (subdomain : Option String) (recordName : String)
    (ip4 : Ipv4Addr) (ip6 : Ipv6Addr) (records4 : List Ipv4Record)
    (records6 : List Ipv6Record) (editRes : Except Error Unit)
    (createRes : Except Error (Option Nat)) :
    ((∀ rec, records4.find? (fun x => x.name == recordName) = some rec →
      (rec.address = ip4 →
        (update_ipv4 domain subdomain recordName (Except.ok (some ip4))
          (Except.ok records4) editRes createRes).2 = [])
      ∧ (rec.address ≠ ip4 →
        (update_ipv4 domain subdomain recordName (Except.ok (some ip4))
          (Except.ok records4) editRes createRes).2
          = [NetCall.editV4 domain subdomain ip4]))
    ∧ (records4.find? (fun x => x.name == recordName) = none →
      (update_ipv4 domain subdomain recordName (Except.ok (some ip4))
        (Except.ok records4) editRes createRes).2
        = [NetCall.create domain subdomain RecordType.Aaaa (ipv4ToString ip4)
            none none])
    ∧ (∀ rec rest, rec.name = recordName →
      update_ipv4 domain subdomain recordName (Except.ok (some ip4))
        (Except.ok (rec :: rest)) editRes createRes
      = update_ipv4 domain subdomain recordName (Except.ok (some ip4))
        (Except.ok [rec]) editRes createRes))
    ∧ ((∀ rec, records6.find? (fun x => x.name == recordName) = some rec →
      (rec.address = ip6 →
        (update_ipv6 v6Display domain subdomain recordName
          (Except.ok (some ip6)) (Except.ok records6) editRes createRes).2 = [])
      ∧ (rec.address ≠ ip6 →
        (update_ipv6 v6Display domain subdomain recordName
          (Except.ok (some ip6)) (Except.ok records6) editRes createRes).2
          = [NetCall.editV6 domain subdomain ip6]))
    ∧ (records6.find? (fun x => x.name == recordName) = none →
      (update_ipv6 v6Display domain subdomain recordName
        (Except.ok (some ip6)) (Except.ok records6) editRes createRes).2
        = [NetCall.create domain subdomain RecordType.Aaaa (v6Display ip6)
            none none])
    ∧ (∀ rec rest, rec.name = recordName →
      update_ipv6 v6Display domain subdomain recordName (Except.ok (some ip6))
        (Except.ok (rec :: rest)) editRes createRes
      = update_ipv6 v6Display domain subdomain recordName (Except.ok (some ip6))
        (Except.ok [rec]) editRes createRes)) := by
  constructor
  · refine ⟨?_, ?_, ?_⟩
    · intro rec h
      constructor
      · intro he
        simp [update_ipv4, Except.map, h, he]
      · intro hne
        have hb : (rec.address == ip4) = false := by
          simp [hne]
        simp [update_ipv4, Except.map, h, hb]
        cases editRes <;> simp
    · intro h
      simp [update_ipv4, Except.map, h]
      cases createRes <;> simp
    · intro rec rest h
      simp [update_ipv4, Except.map, List.find?, h]
  · refine ⟨?_, ?_, ?_⟩
    · intro rec h
      constructor
      · intro he
        simp [update_ipv6, Except.map, h, he]
      · intro hne
        have hb : (rec.address == ip6) = false := by
          simp [hne]
        simp [update_ipv6, Except.map, h, hb]
        cases editRes <;> simp
    · intro h
      simp [update_ipv6, Except.map, h]
      cases createRes <;> simp
    · intro rec rest h
      simp [update_ipv6, Except.map, List.find?, h]

/-- Claim C4, witness: on each path, a published record whose address
differs from the observed one makes the driver issue exactly that
family's edit call. -/
theorem c4_reconciliation_writes_witness :
    (update_ipv4 ("example.com") none ("example.com")
      (Except.ok (some (Ipv4Addr.mk 9 9 9 9)))
      (Except.ok [Ipv4Record.mk ("1") ("example.com") (Ipv4Addr.mk 1 2 3 4)
        ("600") ("0") none])
      (Except.ok ()) (Except.ok none)).2
    = [NetCall.editV4 ("example.com") none (Ipv4Addr.mk 9 9 9 9)]
    ∧ (update_ipv6 (fun _ => ("")) ("example.com") none ("example.com")
      (Except.ok (some (Ipv6Addr.mk 2 2 2 2 2 2 2 2)))
      (Except.ok [Ipv6Record.mk ("1") ("example.com")
        (Ipv6Addr.mk 1 1 1 1 1 1 1 1) ("600") ("0") none])
      (Except.ok ()) (Except.ok none)).2
    = [NetCall.editV6 ("example.com") none (Ipv6Addr.mk 2 2 2 2 2 2 2 2)] :=
  ⟨((c4_reconciliation_writes (fun _ => ("")) ("example.com") none
      ("example.com") (Ipv4Addr.mk 9 9 9 9) (Ipv6Addr.mk 2 2 2 2 2 2 2 2)
      [Ipv4Record.mk ("1") ("example.com") (Ipv4Addr.mk 1 2 3 4) ("600") ("0") none]
      [Ipv6Record.mk ("1") ("example.com") (Ipv6Addr.mk 1 1 1 1 1 1 1 1) ("600") ("0") none]
      (Except.ok ()) (Except.ok none)).1.1
    (Ipv4Record.mk ("1") ("example.com") (Ipv4Addr.mk 1 2 3 4) ("600") ("0") none)
    rfl).2 (by decide),
   ((c4_reconciliation_writes (fun _ => ("")) ("example.com") none
      ("example.com") (Ipv4Addr.mk 9 9 9 9) (Ipv6Addr.mk 2 2 2 2 2 2 2 2)
      [Ipv4Record.mk ("1") ("example.com") (Ipv4Addr.mk 1 2 3 4) ("600") ("0") none]
      [Ipv6Record.mk ("1") ("example.com") (Ipv6Addr.mk 1 1 1 1 1 1 1 1) ("600") ("0") none]
      (Except.ok ()) (Except.ok none)).2.1
    (Ipv6Record.mk ("1") ("example.com") (Ipv6Addr.mk 1 1 1 1 1 1 1 1) ("600") ("0") none)
    rfl).2 (by decide)⟩

/-- Claim C5: whenever the IPv4 reconciliation finds no matching record,
the create call the driver issues carries record type AAAA — not A —
together with the observed IPv4 address rendered as the content. -/
theorem c5_absent_ipv4_creates_aaaa (domain : String)
    (subdomain : Option String) (recordName : String) (ip : Ipv4Addr)
    (records : List Ipv4Record) (editRes : Except Error Unit)
    (createRes : Except Error (Option Nat))
    (h : records.find? (fun x => x.name == recordName) = none) :
    (update_ipv4 domain subdomain recordName (Except.ok (some ip))
      (Except.ok records) editRes createRes).2
      = [NetCall.create domain subdomain RecordType.Aaaa (ipv4ToString ip)
          none none] := by
  simp [update_ipv4, Except.map, h]
  cases createRes <;> simp

/-- Claim C5, witness: the empty published list makes the IPv4 driver
create an AAAA record with the observed address as content. -/
theorem c5_absent_ipv4_creates_aaaa_witness :
    (update_ipv4 ("example.com") none ("example.com")
      (Except.ok (some (Ipv4Addr.mk 1 2 3 4))) (Except.ok []) (Except.ok ())
      (Except.ok none)).2
    = [NetCall.create ("example.com") none RecordType.Aaaa ("1.2.3.4")
        none none] :=
  c5_absent_ipv4_creates_aaaa ("example.com") none ("example.com")
    (Ipv4Addr.mk 1 2 3 4) [] (Except.ok ()) (Except.ok none) rfl

/-- Claim C6: for every address, ping_ipv4 returns the address when it is
IPv4 and fails with the unexpected-family error when it is IPv6;
ping_ipv6 does the opposite; both pass an absent address through as None
without error. -/
theorem c6_ping_family_dispatch :
    ∀ (a : Ipv4Addr) (b : Ipv6Addr),
    ping_ipv4_result (Except.ok (some (IpAddr.V4 a))) = Except.ok (some a)
    ∧ ping_ipv4_result (Except.ok (some (IpAddr.V6 b)))
        = Except.error (Error.UnexpectedIpv6 b)
    ∧ ping_ipv4_result (Except.ok none) = Except.ok none
    ∧ ping_ipv6_result (Except.ok (some (IpAddr.V6 b))) = Except.ok (some b)
    ∧ ping_ipv6_result (Except.ok (some (IpAddr.V4 a)))
        = Except.error (Error.UnexpectedIpv4 a)
    ∧ ping_ipv6_result (Except.ok none) = Except.ok none := by
  intro a b
  exact ⟨rfl, rfl, rfl, rfl, rfl, rfl⟩

/-- Claim C7, counterexample: the body consisting only of a recognized
ERROR status is valid JSON, an object, with a recognized status, and the
success-path conditions do not apply — none of the claim's listed
conditions hold — yet the lenient fetch decoder fails with
MalformedResponse, because the error path requires a message. -/
theorem c7_exactly_when_counterexample :
    resultMalformed (fetch_records_decode (fun _ => (none : Option Ipv4Record))
      ("\x7b\"status\":\"ERROR\"\x7d")) = true
    ∧ jsonParse ("\x7b\"status\":\"ERROR\"\x7d")
        = some (Json.obj [(("status"), Json.str ("ERROR"))])
    ∧ statusOf [(("status"), Json.str ("ERROR"))] = some Status.Error
    ∧ messageOf [(("status"), Json.str ("ERROR"))] = none :=
  ⟨rfl, rfl, rfl, rfl⟩

/-- Claim C7, amended: the lenient record-fetch decoder fails with
MalformedResponse exactly when the body is not valid JSON, or the top
level is not an object, or the status field is missing or not one of the
two literals, or on the success path the records field is absent or does
not parse against the record schema, or on the error path the message
field is absent or not a string. -/
theorem c7_malformed_iff (elemParse : Json → Option Ipv4Record) (body : String) :
    resultMalformed (fetch_records_decode elemParse body) = true ↔
      jsonParse body = none
      ∨ ∃ j, jsonParse body = some j ∧
          (asObj j = none
           ∨ ∃ fields, asObj j = some fields ∧
              (statusOf fields = none
               ∨ (statusOf fields = some Status.Success
                   ∧ lookupField fields ("records") = none)
               ∨ (statusOf fields = some Status.Success
                   ∧ ∃ v, lookupField fields ("records") = some v
                       ∧ vecParse elemParse v = none)
               ∨ (statusOf fields = some Status.Error
                   ∧ messageOf fields = none))) := by
  cases hp : jsonParse body with
  | none => simp [fetch_records_decode, hp, resultMalformed, isMalformedResponse]
  | some j =>
    cases ho : asObj j with
    | none =>
      simp [fetch_records_decode, hp, ho, resultMalformed, isMalformedResponse]
    | some fields =>
      cases hs : statusOf fields with
      | none =>
        simp [fetch_records_decode, hp, ho, hs, resultMalformed,
          isMalformedResponse]
      | some st =>
        cases st with
        | Success =>
          cases hr : lookupField fields ("records") with
          | none =>
            simp [fetch_records_decode, hp, ho, hs, hr, resultMalformed,
              isMalformedResponse]
          | some v =>
            cases hv : vecParse elemParse v with
            | none =>
              simp [fetch_records_decode, hp, ho, hs, hr, hv, resultMalformed,
                isMalformedResponse]
            | some recs =>
              simp [fetch_records_decode, hp, ho, hs, hr, hv, resultMalformed,
                isMalformedResponse]
        | Error =>
          cases hm : messageOf fields with
          | none =>
            simp [fetch_records_decode, hp, ho, hs, hm, resultMalformed,
              isMalformedResponse]
          | some m =>
            simp [fetch_records_decode, hp, ho, hs, hm, resultMalformed,
              isMalformedResponse]

/-- Claim C7, witness: a success envelope with the records field absent
is malformed, through the right-to-left direction of the
characterization at a concrete body. -/
theorem c7_malformed_iff_witness :
    resultMalformed (fetch_records_decode (fun _ => (none : Option Ipv4Record))
      ("\x7b\"status\":\"SUCCESS\"\x7d")) = true :=
  (c7_malformed_iff (fun _ => none) ("\x7b\"status\":\"SUCCESS\"\x7d")).mpr
    (Or.inr ⟨Json.obj [(("status"), Json.str ("SUCCESS"))], rfl,
      Or.inr ⟨[(("status"), Json.str ("SUCCESS"))], rfl,
        Or.inr (Or.inl ⟨rfl, rfl⟩)⟩⟩)

/-- Claim C8: the reconciliation target is the subdomain when supplied
and otherwise the domain, and matching is exact: with target
www.example.com against a published list containing only example.com —
even with the very address observed — the driver issues the create call
(Absent), with no suffix or partial matching. -/
theorem c8_target_name_exact_match :
    (∀ (s d : String), record_name (some s) d = s)
    ∧ (∀ (d : String), record_name none d = d)
    ∧ (update_ipv4 ("example.com") (some ("www.example.com"))
        (record_name (some ("www.example.com")) ("example.com"))
        (Except.ok (some (Ipv4Addr.mk 1 2 3 4)))
        (Except.ok [Ipv4Record.mk ("1") ("example.com") (Ipv4Addr.mk 1 2 3 4)
          ("600") ("0") none])
        (Except.ok ()) (Except.ok none)).2
      = [NetCall.create ("example.com") (some ("www.example.com"))
          RecordType.Aaaa ("1.2.3.4") none none] := by
  refine ⟨fun s d => rfl, fun d => rfl, ?_⟩
  rfl

/-- Claim C9: when both address families are requested, both updates are
attempted in order regardless of either outcome, and the exit status is
the number of families whose update failed. -/
theorem c9_exit_counts_failures :
    ∀ (v4ok v6ok : Bool),
    (main_run true true v4ok v6ok).1 = [Family.v4, Family.v6]
    ∧ (main_run true true v4ok v6ok).2
        = (if v4ok then 0 else 1) + (if v6ok then 0 else 1) := by
  intro a b
  cases a <;> cases b <;> exact ⟨rfl, rfl⟩

/-- Claim C10: a key file that parses stores the raw text alongside the
two parsed keys, and every ping request sends that stored raw text,
unmodified, as its body. -/
theorem c10_ping_sends_raw_key_file (raw : String) (j : Json)
    (api secret : String) (h1 : jsonParse raw = some j)
    (h2 : keysDecode j = some (api, secret)) :
    open_keys raw = Except.ok (Client.mk raw secret api)
    ∧ ∀ (c : Client) (url : String), open_keys raw = Except.ok c →
        (ping_request c url).body = raw := by
  constructor
  · simp [open_keys, h1, h2]
  · intro c url hc
    simp [open_keys, h1, h2] at hc
    simp [ping_request, ← hc]

/-- Claim C10, witness: a concrete key file round-trips into the client
with its raw text preserved. -/
theorem c10_ping_sends_raw_key_file_witness :
    open_keys ("\x7b\"apikey\":\"ak\",\"secretapikey\":\"sk\"\x7d")
      = Except.ok (Client.mk ("\x7b\"apikey\":\"ak\",\"secretapikey\":\"sk\"\x7d")
          ("sk") ("ak")) :=
  (c10_ping_sends_raw_key_file ("\x7b\"apikey\":\"ak\",\"secretapikey\":\"sk\"\x7d")
    (Json.obj [(("apikey"), Json.str ("ak")), (("secretapikey"), Json.str ("sk"))])
    ("ak") ("sk") rfl rfl).1

end Porkbun
